import Mathlib

/-!
Shallow embedding of the AgentPass Python SDK client
(`packages/python-sdk/src/agentpass/client.py`).

The client is a thin HTTP wrapper: each operation builds one HTTP request
and interprets the one HTTP response.  We model a single exchange as a pure
function from the client state, the operation arguments and the HTTP
response the server sends back, to the request that was built, the client
state after the call, and the outcome (a JSON value or a raised Python
exception).

JSON values are modelled by the inductive `Json`; a parsed Python value may
also be `None`, which we represent as `Option Json` with the convention
that JSON `null` normalises to `none` (as `json.loads` maps `null` to the
Python `None`).  Numbers are modelled as integers; no claim depends on
float rendering.
-/

/-- A JSON value, as produced by `json.loads` on the response body.  An
object is a list of key/value fields; the parsed Python dict has unique
keys (on duplicate keys `json.loads` keeps the last, so the field list we
receive is the already-deduplicated dict). -/
inductive Json where
  | null : Json
  | bool : Bool → Json
  | num : Int → Json
  | str : String → Json
  | arr : List Json → Json
  | obj : List (String × Json) → Json

/-- Python truthiness of a parsed JSON value (`if auth and self.token:`). -/
def pyTruthy : Json → Bool
  | Json.null => false
  | Json.bool b => b
  | Json.num n => decide (n ≠ 0)
  | Json.str s => decide (s ≠ "")
  | Json.arr l => !l.isEmpty
  | Json.obj l => !l.isEmpty

mutual

/-- Python `repr` of a parsed JSON value. -/
def pyRepr : Json → String
  | Json.null => "None"
  | Json.bool true => "True"
  | Json.bool false => "False"
  | Json.num n => toString n
  | Json.str s => "\x27" ++ s ++ "\x27"
  | Json.arr l => "[" ++ pyReprArr l ++ "]"
  | Json.obj l => "\x7b" ++ pyReprObj l ++ "\x7d"

/-- Comma-separated reprs of the elements of a Python list. -/
def pyReprArr : List Json → String
  | [] => ""
  | [x] => pyRepr x
  | x :: xs => pyRepr x ++ ", " ++ pyReprArr xs

/-- Comma-separated reprs of the items of a Python dict. -/
def pyReprObj : List (String × Json) → String
  | [] => ""
  | [(k, v)] => "\x27" ++ k ++ "\x27: " ++ pyRepr v
  | (k, v) :: xs => "\x27" ++ k ++ "\x27: " ++ pyRepr v ++ ", " ++ pyReprObj xs

end

/-- Python `str` of a parsed JSON value: the string itself for a `str`,
`repr` otherwise (used by `str(body)` in the error path and by the f-string
`f"Bearer ..."` in the header builder). -/
def pyStr : Json → String
  | Json.str s => s
  | j => pyRepr j

/-- Python `dict.get` lookup over the parsed dict fields. -/
def lookupField (fields : List (String × Json)) (key : String) : Option Json :=
  match fields with
  | [] => none
  | (k, v) :: rest => if k = key then some v else lookupField rest key

/-- The client state: `self.base_url` and `self.token`.  The token is a
Python value (`None` or the value last assigned); the SDK annotates it as
`str | None` but assigns `data["token"]` without checking, so we keep it as
an optional JSON value with `null` normalised to `none`. -/
structure ClientState where
  base_url : String
  token : Option Json

/-- The HTTP request handed to `requests.request`. -/
structure HttpRequest where
  method : String
  url : String
  headers : List (String × String)
  body : Option Json

/-- The HTTP response the code inspects: `resp.status_code`, `resp.text`,
and the result of `resp.json()` — `some j` when the body text parses as
JSON, `none` when parsing raises. -/
structure HttpResponse where
  status : Nat
  text : String
  jsonBody : Option Json

/-- An exception escaping a client call: `AgentPassError(message,
status_code)` raised by `_request`, the `requests` JSON decode error from
`resp.json()` on a success response that is not JSON, `KeyError` from
`data["token"]` on a dict without that key, or `TypeError` from
subscripting a non-dict (for instance the `None` returned for a 204). -/
inductive PyExn where
  | agentPassError (message : String) (status_code : Option Nat)
  | jsonDecodeError
  | keyError (key : String)
  | typeError
deriving DecidableEq

/-- `resp.ok` of the `requests` library: true unless the status code is a
client or server error, that is unless `400 ≤ status < 600`
(`Response.ok` delegates to `raise_for_status`, which raises exactly for
those codes). -/
def respOk (status : Nat) : Bool := !(decide (400 ≤ status ∧ status < 600))

/-- The message of the `AgentPassError` raised for a failed response:
`body = resp.text`, then `body = resp.json().get("error", body)` guarded
by `except Exception: pass`, then `str(body)`.  So: the `error` field of a
JSON-object body when there is one (rendered by `str`), the raw text when
the body is not JSON, is not an object, or has no `error` field. -/
def errorMessage (resp : HttpResponse) : String :=
  match resp.jsonBody with
  | some (Json.obj fields) =>
    match lookupField fields "error" with
    | some v => pyStr v
    | none => resp.text
  | _ => resp.text

/-- Response interpretation of `AgentPassClient._request`: raise
`AgentPassError` when `not resp.ok`, return `None` on status 204,
otherwise return `resp.json()` (raising the decode error when the body
does not parse). -/
def requestRun (resp : HttpResponse) : Except PyExn (Option Json) :=
  if !(respOk resp.status) then
    Except.error (PyExn.agentPassError (errorMessage resp) (some resp.status))
  else if resp.status = 204 then
    Except.ok none
  else
    match resp.jsonBody with
    | some j => Except.ok (some j)
    | none => Except.error PyExn.jsonDecodeError

/-- Header construction of `AgentPassClient._headers`: always
`Content-Type: application/json`; additionally `Authorization: Bearer
<token>` when `auth and self.token` is truthy. -/
def headersOf (st : ClientState) (auth : Bool) : List (String × String) :=
  match st.token with
  | none => [("Content-Type", "application/json")]
  | some t =>
    if auth && pyTruthy t then
      [("Content-Type", "application/json"), ("Authorization", "Bearer " ++ pyStr t)]
    else
      [("Content-Type", "application/json")]

/-- `AgentPassClient._request`: build the URL as `base_url + path`, build
the headers, send, and interpret the response.  Returns the request that
was sent together with the outcome. -/
def request (st : ClientState) (method path : String) (body : Option Json)
    (auth : Bool) (resp : HttpResponse) : HttpRequest × Except PyExn (Option Json) :=
  ({ method := method, url := st.base_url ++ path,
     headers := headersOf st auth, body := body },
   requestRun resp)

/-- Python subscript `data[key]` on a value returned by `_request`:
a lookup on a dict (`KeyError` when absent), `TypeError` on anything else,
including the `None` of a 204 response. -/
def subscript (data : Option Json) (key : String) : Except PyExn Json :=
  match data with
  | some (Json.obj fields) =>
    match lookupField fields key with
    | some v => Except.ok v
    | none => Except.error (PyExn.keyError key)
  | _ => Except.error PyExn.typeError

/-- Normalise an assigned JSON value to a Python optional value:
`self.token = data["token"]` stores Python `None` when the field was JSON
`null`. -/
def toPyOpt : Json → Option Json
  | Json.null => none
  | v => some v

/-- The default `base_url` of the constructor. -/
def defaultBaseUrl : String := "https://api.agentpass.space"

/-- Drop every trailing slash character, as `base_url.rstrip("/")`. -/
def rstripSlashes (s : String) : String :=
  String.mk ((s.data.reverse.dropWhile (fun c => c == '/')).reverse)

/-- `AgentPassClient.__init__`: store the base URL with trailing slashes
stripped and the given token. -/
def mkClient (base_url : String) (token : Option Json) : ClientState :=
  { base_url := rstripSlashes base_url, token := token }

/-- `register`: POST `/auth/register`, then `self.token = data["token"]`
and return `self.token`.  The `auth` flag of `_request` is left at its
default `True`. -/
def register (st : ClientState) (email password name : String) (resp : HttpResponse) :
    HttpRequest × ClientState × Except PyExn (Option Json) :=
  let rr := request st "POST" "/auth/register"
    (some (Json.obj [("email", Json.str email), ("password", Json.str password),
                     ("name", Json.str name)])) true resp
  match rr.2 with
  | Except.error e => (rr.1, st, Except.error e)
  | Except.ok data =>
    match subscript data "token" with
    | Except.error e => (rr.1, st, Except.error e)
    | Except.ok v => (rr.1, { st with token := toPyOpt v }, Except.ok (toPyOpt v))

/-- `login`: POST `/auth/login`, then `self.token = data["token"]` and
return `self.token`. -/
def login (st : ClientState) (email password : String) (resp : HttpResponse) :
    HttpRequest × ClientState × Except PyExn (Option Json) :=
  let rr := request st "POST" "/auth/login"
    (some (Json.obj [("email", Json.str email), ("password", Json.str password)])) true resp
  match rr.2 with
  | Except.error e => (rr.1, st, Except.error e)
  | Except.ok data =>
    match subscript data "token" with
    | Except.error e => (rr.1, st, Except.error e)
    | Except.ok v => (rr.1, { st with token := toPyOpt v }, Except.ok (toPyOpt v))

/-- `create_passport`: POST `/passports` with the passport body,
authenticated. -/
def create_passport (st : ClientState) (name public_key : String) (resp : HttpResponse) :
    HttpRequest × ClientState × Except PyExn (Option Json) :=
  let rr := request st "POST" "/passports"
    (some (Json.obj [("name", Json.str name), ("publicKey", Json.str public_key)])) true resp
  (rr.1, st, rr.2)

/-- `get_passport`: GET `/passports/{id}`, authenticated. -/
def get_passport (st : ClientState) (passport_id : String) (resp : HttpResponse) :
    HttpRequest × ClientState × Except PyExn (Option Json) :=
  let rr := request st "GET" ("/passports/" ++ passport_id) none true resp
  (rr.1, st, rr.2)

/-- `get_public_passport`: GET `/passports/{id}/public` with `auth=False`. -/
def get_public_passport (st : ClientState) (passport_id : String) (resp : HttpResponse) :
    HttpRequest × ClientState × Except PyExn (Option Json) :=
  let rr := request st "GET" ("/passports/" ++ passport_id ++ "/public") none false resp
  (rr.1, st, rr.2)

/-- `verify`: POST `/passports/{id}/verify` with `auth=False`. -/
def verify (st : ClientState) (passport_id challenge signature : String) (resp : HttpResponse) :
    HttpRequest × ClientState × Except PyExn (Option Json) :=
  let rr := request st "POST" ("/passports/" ++ passport_id ++ "/verify")
    (some (Json.obj [("challenge", Json.str challenge), ("signature", Json.str signature)]))
    false resp
  (rr.1, st, rr.2)

/-- `get_trust`: GET `/passports/{id}/trust`, authenticated. -/
def get_trust (st : ClientState) (passport_id : String) (resp : HttpResponse) :
    HttpRequest × ClientState × Except PyExn (Option Json) :=
  let rr := request st "GET" ("/passports/" ++ passport_id ++ "/trust") none true resp
  (rr.1, st, rr.2)

/-- `send_message`: POST `/messages` with the message body, authenticated. -/
def send_message (st : ClientState) (from_id to_id subject body : String) (resp : HttpResponse) :
    HttpRequest × ClientState × Except PyExn (Option Json) :=
  let rr := request st "POST" "/messages"
    (some (Json.obj [("from", Json.str from_id), ("to", Json.str to_id),
                     ("subject", Json.str subject), ("body", Json.str body)])) true resp
  (rr.1, st, rr.2)

/-- `get_messages`: GET `/passports/{id}/messages`, authenticated. -/
def get_messages (st : ClientState) (passport_id : String) (resp : HttpResponse) :
    HttpRequest × ClientState × Except PyExn (Option Json) :=
  let rr := request st "GET" ("/passports/" ++ passport_id ++ "/messages") none true resp
  (rr.1, st, rr.2)

/-- Whether an outcome is a raised `AgentPassError` (as opposed to a
returned value or another exception). -/
def isApiError : Except PyExn (Option Json) → Bool
  | Except.error (PyExn.agentPassError _ _) => true
  | _ => false

/-- Whether a string ends in a slash character. -/
def endsInSlash (s : String) : Bool := decide (s.data.getLast? = some '/')

/-! ### Helper lemmas about the request interpretation -/

/-- A response with a client- or server-error status is not `ok`, so
`_request` raises the `AgentPassError`. -/
theorem requestRun_fail (resp : HttpResponse) (h4 : 400 ≤ resp.status)
    (h6 : resp.status < 600) :
    requestRun resp
      = Except.error (PyExn.agentPassError (errorMessage resp) (some resp.status)) := by
  have hok : respOk resp.status = false := by
    unfold respOk
    simp [h4, h6]
  unfold requestRun
  rw [hok]
  rfl

/-- A 204 response is `ok` and `_request` returns `None` for it. -/
theorem requestRun_204 (resp : HttpResponse) (h : resp.status = 204) :
    requestRun resp = Except.ok none := by
  unfold requestRun
  rw [h]
  rfl

/-- An `ok` response other than 204 whose body parses returns the parsed
JSON value. -/
theorem requestRun_success (resp : HttpResponse) (j : Json)
    (hok : respOk resp.status = true) (h204 : resp.status ≠ 204)
    (hj : resp.jsonBody = some j) :
    requestRun resp = Except.ok (some j) := by
  unfold requestRun
  rw [hok, hj]
  simp [h204]

/-- Whenever `register` or `login` ends in any exception, the client state
is left untouched. -/
theorem auth_state_frame (st : ClientState) (a b c : String) (resp : HttpResponse)
    (e : PyExn) :
    ((register st a b c resp).2.2 = Except.error e → (register st a b c resp).2.1 = st) ∧
    ((login st a b resp).2.2 = Except.error e → (login st a b resp).2.1 = st) := by
  constructor
  · simp only [register, request]
    cases hq : requestRun resp with
    | error e2 => intro _; rfl
    | ok data =>
      dsimp only
      cases hs : subscript data "token" with
      | error e2 => intro _; rfl
      | ok v => intro h; exact absurd h (by simp)
  · simp only [login, request]
    cases hq : requestRun resp with
    | error e2 => intro _; rfl
    | ok data =>
      dsimp only
      cases hs : subscript data "token" with
      | error e2 => intro _; rfl
      | ok v => intro h; exact absurd h (by simp)

/-! ### Claim C1 -/

/-- Claim C1, counterexample to the claim as stated: the claim says every
non-2xx response raises an `AgentPassError`, but `resp.ok` of the
`requests` library is true for every status below 400, so a 301 response
(non-2xx) does not raise: `verify` returns the parsed body instead of
raising an API error. -/
theorem C1_counterexample :
    (verify { base_url := "https://api.agentpass.space", token := none } "ap_1" "ch" "sig"
        { status := 301, text := "moved",
          jsonBody := some (Json.obj [("error", Json.str "moved")]) }).2.2
      = Except.ok (some (Json.obj [("error", Json.str "moved")])) ∧
    isApiError
      (verify { base_url := "https://api.agentpass.space", token := none } "ap_1" "ch" "sig"
        { status := 301, text := "moved",
          jsonBody := some (Json.obj [("error", Json.str "moved")]) }).2.2
      = false := ⟨rfl, rfl⟩

/-- Claim C1 (amended): for every operation, if the HTTP response has a
client- or server-error status (400–599, exactly the statuses the
underlying HTTP library treats as not `ok`), the call raises an
`AgentPassError` whose status code equals the response status and whose
message is the error text: the `error` field when the body parses as a
JSON object containing one, otherwise the raw response body text. -/
theorem C1_non_ok_raises_api_error (st : ClientState) (a b c d : String)
    (resp : HttpResponse) (h4 : 400 ≤ resp.status) (h6 : resp.status < 600) :
    ((register st a b c resp).2.2
        = Except.error (PyExn.agentPassError (errorMessage resp) (some resp.status))) ∧
    ((login st a b resp).2.2
        = Except.error (PyExn.agentPassError (errorMessage resp) (some resp.status))) ∧
    ((create_passport st a b resp).2.2
        = Except.error (PyExn.agentPassError (errorMessage resp) (some resp.status))) ∧
    ((get_passport st a resp).2.2
        = Except.error (PyExn.agentPassError (errorMessage resp) (some resp.status))) ∧
    ((get_public_passport st a resp).2.2
        = Except.error (PyExn.agentPassError (errorMessage resp) (some resp.status))) ∧
    ((verify st a b c resp).2.2
        = Except.error (PyExn.agentPassError (errorMessage resp) (some resp.status))) ∧
    ((get_trust st a resp).2.2
        = Except.error (PyExn.agentPassError (errorMessage resp) (some resp.status))) ∧
    ((send_message st a b c d resp).2.2
        = Except.error (PyExn.agentPassError (errorMessage resp) (some resp.status))) ∧
    ((get_messages st a resp).2.2
        = Except.error (PyExn.agentPassError (errorMessage resp) (some resp.status))) ∧
    (∀ fields m, resp.jsonBody = some (Json.obj fields) →
        lookupField fields "error" = some (Json.str m) → errorMessage resp = m) ∧
    (resp.jsonBody = none → errorMessage resp = resp.text) := by
  have hrr := requestRun_fail resp h4 h6
  refine ⟨?_, ?_, ?_, ?_, ?_, ?_, ?_, ?_, ?_, ?_, ?_⟩
  · simp [register, request, hrr]
  · simp [login, request, hrr]
  · simp [create_passport, request, hrr]
  · simp [get_passport, request, hrr]
  · simp [get_public_passport, request, hrr]
  · simp [verify, request, hrr]
  · simp [get_trust, request, hrr]
  · simp [send_message, request, hrr]
  · simp [get_messages, request, hrr]
  · intro fields m hb hl
    simp [errorMessage, hb, hl, pyStr]
  · intro hb
    simp [errorMessage, hb]

/-- Witness for C1 at the concrete 401 login of the test suite. -/
theorem C1_witness :
    400 ≤ 401 ∧ 401 < 600 ∧
    (login { base_url := "https://api.agentpass.space", token := none } "bad@x.com" "wrong"
        { status := 401, text := "raw",
          jsonBody := some (Json.obj [("error", Json.str "Invalid credentials")]) }).2.2
      = Except.error (PyExn.agentPassError "Invalid credentials" (some 401)) := by
  refine ⟨by decide, by decide, ?_⟩
  exact (C1_non_ok_raises_api_error
    { base_url := "https://api.agentpass.space", token := none } "bad@x.com" "wrong" "c" "d"
    { status := 401, text := "raw",
      jsonBody := some (Json.obj [("error", Json.str "Invalid credentials")]) }
    (by decide) (by decide)).2.1

/-! ### Claim C2 -/

/-- Claim C2: for every successful `register` or `login` call (the server
responds with a success status and a JSON body containing a `token`
field), the stored token is set to the server-returned `token` value and
the call returns that same value (JSON `null` denoting the Python `None`
in both places). -/
theorem C2_auth_sets_and_returns_token (st : ClientState) (a b c : String)
    (resp : HttpResponse) (fields : List (String × Json)) (v : Json)
    (hok : respOk resp.status = true) (h204 : resp.status ≠ 204)
    (hbody : resp.jsonBody = some (Json.obj fields))
    (htok : lookupField fields "token" = some v) :
    ((register st a b c resp).2.1.token = toPyOpt v) ∧
    ((register st a b c resp).2.2 = Except.ok (toPyOpt v)) ∧
    ((login st a b resp).2.1.token = toPyOpt v) ∧
    ((login st a b resp).2.2 = Except.ok (toPyOpt v)) := by
  have hrr := requestRun_success resp (Json.obj fields) hok h204 hbody
  have hs : subscript (some (Json.obj fields)) "token" = Except.ok v := by
    simp [subscript, htok]
  refine ⟨?_, ?_, ?_, ?_⟩ <;> simp [register, login, request, hrr, hs]

/-- Witness for C2 at the concrete response of the test suite. -/
theorem C2_witness :
    respOk 200 = true ∧ (200 : Nat) ≠ 204 ∧
    (register { base_url := "https://api.agentpass.space", token := none } "a@b.com" "pw" "Agent"
        { status := 200, text := "",
          jsonBody := some (Json.obj [("token", Json.str "tok123")]) }).2.1.token
      = some (Json.str "tok123") ∧
    (register { base_url := "https://api.agentpass.space", token := none } "a@b.com" "pw" "Agent"
        { status := 200, text := "",
          jsonBody := some (Json.obj [("token", Json.str "tok123")]) }).2.2
      = Except.ok (some (Json.str "tok123")) := by
  have h := C2_auth_sets_and_returns_token
    { base_url := "https://api.agentpass.space", token := none } "a@b.com" "pw" "Agent"
    { status := 200, text := "", jsonBody := some (Json.obj [("token", Json.str "tok123")]) }
    [("token", Json.str "tok123")] (Json.str "tok123")
    (by decide) (by decide) rfl rfl
  exact ⟨by decide, by decide, h.1, h.2.1⟩

/-! ### Claim C3 -/

/-- Claim C3, counterexample to the claim as stated: the claim says that
whenever an authenticated operation is issued with a token present the
headers include `Authorization: Bearer <token>`; but the header guard is
the Python truthiness test `if auth and self.token:`, so a client whose
token is the empty string (a present token) sends no `Authorization`
header on `create_passport`. -/
theorem C3_counterexample :
    (create_passport { base_url := "https://api.agentpass.space", token := some (Json.str "") }
        "bot" "pubkey" { status := 200, text := "", jsonBody := some (Json.obj []) }).1.headers
      = [("Content-Type", "application/json")] := rfl

/-- Claim C3 (amended): every operation sends headers built by `_headers`:
always `Content-Type: application/json`; additionally `Authorization:
Bearer <token>` when the operation requires authentication and a truthy
(in particular, non-empty) token is present; when no token is set,
authenticated endpoints omit the `Authorization` header. -/
theorem C3_headers (st : ClientState) (a b c d : String) (resp : HttpResponse) :
    ((register st a b c resp).1.headers = headersOf st true) ∧
    ((login st a b resp).1.headers = headersOf st true) ∧
    ((create_passport st a b resp).1.headers = headersOf st true) ∧
    ((get_passport st a resp).1.headers = headersOf st true) ∧
    ((get_public_passport st a resp).1.headers = headersOf st false) ∧
    ((verify st a b c resp).1.headers = headersOf st false) ∧
    ((get_trust st a resp).1.headers = headersOf st true) ∧
    ((send_message st a b c d resp).1.headers = headersOf st true) ∧
    ((get_messages st a resp).1.headers = headersOf st true) ∧
    (∀ auth, ("Content-Type", "application/json") ∈ headersOf st auth) ∧
    (∀ t, st.token = some t → pyTruthy t = true →
        headersOf st true
          = [("Content-Type", "application/json"),
             ("Authorization", "Bearer " ++ pyStr t)]) ∧
    (st.token = none → ∀ auth, headersOf st auth = [("Content-Type", "application/json")]) := by
  refine ⟨?_, ?_, ?_, ?_, ?_, ?_, ?_, ?_, ?_, ?_, ?_, ?_⟩
  · simp only [register, request]
    cases requestRun resp with
    | error e => rfl
    | ok data =>
      dsimp only
      cases subscript data "token" with
      | error e => rfl
      | ok v => rfl
  · simp only [login, request]
    cases requestRun resp with
    | error e => rfl
    | ok data =>
      dsimp only
      cases subscript data "token" with
      | error e => rfl
      | ok v => rfl
  · rfl
  · rfl
  · rfl
  · rfl
  · rfl
  · rfl
  · rfl
  · intro auth
    rcases htok : st.token with _ | t
    · simp [headersOf, htok]
    · by_cases hb : (auth && pyTruthy t) = true
      · simp [headersOf, htok, hb]
      · simp [headersOf, htok, hb]
  · intro t ht hp
    simp [headersOf, ht, hp]
  · intro ht auth
    simp [headersOf, ht]

/-- Witness for C3 at a concrete truthy token, checking the Bearer header
of the test suite. -/
theorem C3_witness :
    ({ base_url := "https://api.agentpass.space", token := some (Json.str "t") }
        : ClientState).token = some (Json.str "t") ∧
    pyTruthy (Json.str "t") = true ∧
    (create_passport { base_url := "https://api.agentpass.space", token := some (Json.str "t") }
        "bot" "pubkey" { status := 200, text := "", jsonBody := some (Json.obj []) }).1.headers
      = [("Content-Type", "application/json"), ("Authorization", "Bearer t")] := by
  have h := C3_headers
    { base_url := "https://api.agentpass.space", token := some (Json.str "t") }
    "bot" "pubkey" "c" "d" { status := 200, text := "", jsonBody := some (Json.obj []) }
  refine ⟨rfl, by decide, ?_⟩
  exact h.2.2.1.trans (h.2.2.2.2.2.2.2.2.2.2.1 (Json.str "t") rfl (by decide))

/-! ### Claim C4 -/

/-- Claim C4: a successful `create_passport`, `get_passport` or
`send_message` returns the JSON value of the server response unchanged,
and a successful `get_messages` whose body is a JSON array returns exactly
that array, so its length equals the number of message objects served. -/
theorem C4_roundtrip (st : ClientState) (a b c d : String) (resp : HttpResponse)
    (j : Json) (hok : respOk resp.status = true) (h204 : resp.status ≠ 204)
    (hbody : resp.jsonBody = some j) :
    ((create_passport st a b resp).2.2 = Except.ok (some j)) ∧
    ((get_passport st a resp).2.2 = Except.ok (some j)) ∧
    ((send_message st a b c d resp).2.2 = Except.ok (some j)) ∧
    (∀ l, j = Json.arr l →
        ∃ ms, (get_messages st a resp).2.2 = Except.ok (some (Json.arr ms)) ∧
          ms.length = l.length) := by
  have hrr := requestRun_success resp j hok h204 hbody
  refine ⟨?_, ?_, ?_, ?_⟩
  · simp [create_passport, request, hrr]
  · simp [get_passport, request, hrr]
  · simp [send_message, request, hrr]
  · intro l hl
    refine ⟨l, ?_, rfl⟩
    subst hl
    simp [get_messages, request, hrr]

/-- Witness for C4 at a concrete one-element inbox. -/
theorem C4_witness :
    respOk 200 = true ∧ (200 : Nat) ≠ 204 ∧
    (∃ ms, (get_messages { base_url := "https://api.agentpass.space", token := some (Json.str "t") }
        "ap_a"
        { status := 200, text := "",
          jsonBody := some (Json.arr [Json.obj [("id", Json.str "m1")]]) }).2.2
        = Except.ok (some (Json.arr ms)) ∧
      ms.length = [Json.obj [("id", Json.str "m1")]].length) := by
  have h := C4_roundtrip
    { base_url := "https://api.agentpass.space", token := some (Json.str "t") }
    "ap_a" "b" "c" "d"
    { status := 200, text := "", jsonBody := some (Json.arr [Json.obj [("id", Json.str "m1")]]) }
    (Json.arr [Json.obj [("id", Json.str "m1")]]) (by decide) (by decide) rfl
  exact ⟨by decide, by decide, h.2.2.2 [Json.obj [("id", Json.str "m1")]] rfl⟩

/-! ### Claim C5 -/

/-- Claim C5: for two client states differing only in the stored token
(one with any token, one with none), `get_public_passport` builds a
request without an `Authorization` header in both runs, and the two
requests carry identical headers; the same holds for `verify`. -/
theorem C5_public_ops_never_authorize (base : String) (t : Json) (i c s : String)
    (resp : HttpResponse) :
    ((get_public_passport { base_url := base, token := some t } i resp).1.headers.lookup
        "Authorization" = none) ∧
    ((get_public_passport { base_url := base, token := none } i resp).1.headers.lookup
        "Authorization" = none) ∧
    ((get_public_passport { base_url := base, token := some t } i resp).1.headers
      = (get_public_passport { base_url := base, token := none } i resp).1.headers) ∧
    ((verify { base_url := base, token := some t } i c s resp).1.headers.lookup
        "Authorization" = none) ∧
    ((verify { base_url := base, token := none } i c s resp).1.headers.lookup
        "Authorization" = none) ∧
    ((verify { base_url := base, token := some t } i c s resp).1.headers
      = (verify { base_url := base, token := none } i c s resp).1.headers) := by
  refine ⟨rfl, rfl, rfl, rfl, rfl, rfl⟩

/-! ### Claim C6 -/

/-- Claim C6: every operation other than `register` and `login` leaves the
client state (base URL and token) exactly as it was, whether the call
returns a value or raises. -/
theorem C6_state_frame (st : ClientState) (a b c d : String) (resp : HttpResponse) :
    ((create_passport st a b resp).2.1 = st) ∧
    ((get_passport st a resp).2.1 = st) ∧
    ((get_public_passport st a resp).2.1 = st) ∧
    ((verify st a b c resp).2.1 = st) ∧
    ((get_trust st a resp).2.1 = st) ∧
    ((send_message st a b c d resp).2.1 = st) ∧
    ((get_messages st a resp).2.1 = st) :=
  ⟨rfl, rfl, rfl, rfl, rfl, rfl, rfl⟩

/-! ### Claim C7 -/

/-- Claim C7, counterexample to the claim as stated: the claim says every
operation returns `None` on a 204 response, but `register` subscripts the
`None` returned by `_request` and fails with a `TypeError`. -/
theorem C7_counterexample :
    (register { base_url := "https://api.agentpass.space", token := none } "e" "p" "n"
        { status := 204, text := "", jsonBody := none }).2.2
      = Except.error PyExn.typeError := rfl

/-- Claim C7 (amended): on a 204 response every operation other than
`register` and `login` returns no result value (`None`, neither an empty
object nor an error); `register` and `login` fail with a `TypeError` when
they subscript that `None`. -/
theorem C7_204_returns_none (st : ClientState) (a b c d : String) (resp : HttpResponse)
    (h : resp.status = 204) :
    ((create_passport st a b resp).2.2 = Except.ok none) ∧
    ((get_passport st a resp).2.2 = Except.ok none) ∧
    ((get_public_passport st a resp).2.2 = Except.ok none) ∧
    ((verify st a b c resp).2.2 = Except.ok none) ∧
    ((get_trust st a resp).2.2 = Except.ok none) ∧
    ((send_message st a b c d resp).2.2 = Except.ok none) ∧
    ((get_messages st a resp).2.2 = Except.ok none) ∧
    ((register st a b c resp).2.2 = Except.error PyExn.typeError) ∧
    ((login st a b resp).2.2 = Except.error PyExn.typeError) := by
  have hrr := requestRun_204 resp h
  refine ⟨?_, ?_, ?_, ?_, ?_, ?_, ?_, ?_, ?_⟩
  · simp [create_passport, request, hrr]
  · simp [get_passport, request, hrr]
  · simp [get_public_passport, request, hrr]
  · simp [verify, request, hrr]
  · simp [get_trust, request, hrr]
  · simp [send_message, request, hrr]
  · simp [get_messages, request, hrr]
  · simp [register, request, hrr, subscript]
  · simp [login, request, hrr, subscript]

/-- Witness for C7 at a concrete 204 response. -/
theorem C7_witness :
    (204 : Nat) = 204 ∧
    (create_passport { base_url := "https://api.agentpass.space", token := some (Json.str "t") }
        "bot" "pubkey" { status := 204, text := "", jsonBody := none }).2.2
      = Except.ok none := by
  have h := C7_204_returns_none
    { base_url := "https://api.agentpass.space", token := some (Json.str "t") }
    "bot" "pubkey" "c" "d" { status := 204, text := "", jsonBody := none } rfl
  exact ⟨rfl, h.1⟩

/-! ### Claim C8 -/

/-- Stripping the trailing slashes leaves a string that does not end in a
slash. -/
theorem endsInSlash_rstripSlashes (s : String) : endsInSlash (rstripSlashes s) = false := by
  unfold endsInSlash rstripSlashes
  simp only [List.getLast?_reverse]
  have hnot := List.head?_dropWhile_not (fun c => c == '/') s.data.reverse
  rcases hh : (s.data.reverse.dropWhile (fun c => c == '/')).head? with _ | x
  · simp [hh]
  · rw [hh] at hnot
    have hx : x ≠ '/' := by simpa using hnot
    simp [hh, hx]

/-- The request of `register` and the base URL of the state it returns,
in every branch of the token extraction. -/
theorem register_url_base (st : ClientState) (a b c : String) (resp : HttpResponse) :
    (register st a b c resp).1.url = st.base_url ++ "/auth/register" ∧
    (register st a b c resp).2.1.base_url = st.base_url := by
  simp only [register, request]
  cases requestRun resp with
  | error e => exact ⟨rfl, rfl⟩
  | ok data =>
    dsimp only
    cases subscript data "token" with
    | error e => exact ⟨rfl, rfl⟩
    | ok v => exact ⟨rfl, rfl⟩

/-- The request of `login` and the base URL of the state it returns, in
every branch of the token extraction. -/
theorem login_url_base (st : ClientState) (a b : String) (resp : HttpResponse) :
    (login st a b resp).1.url = st.base_url ++ "/auth/login" ∧
    (login st a b resp).2.1.base_url = st.base_url := by
  simp only [login, request]
  cases requestRun resp with
  | error e => exact ⟨rfl, rfl⟩
  | ok data =>
    dsimp only
    cases subscript data "token" with
    | error e => exact ⟨rfl, rfl⟩
    | ok v => exact ⟨rfl, rfl⟩

/-- Claim C8: construction stores the given base URL (by default
`https://api.agentpass.space`) with trailing slashes stripped, so the
stored base URL never ends in a slash; every operation leaves the base URL
unchanged, and every request targets `base_url + path`. -/
theorem C8_base_url_invariant (s : String) (tok : Option Json) (st : ClientState)
    (a b c d : String) (resp : HttpResponse) :
    ((mkClient s tok).base_url = rstripSlashes s) ∧
    (endsInSlash (mkClient s tok).base_url = false) ∧
    ((mkClient defaultBaseUrl tok).base_url = defaultBaseUrl) ∧
    ((register st a b c resp).2.1.base_url = st.base_url) ∧
    ((login st a b resp).2.1.base_url = st.base_url) ∧
    ((create_passport st a b resp).2.1.base_url = st.base_url) ∧
    ((get_passport st a resp).2.1.base_url = st.base_url) ∧
    ((get_public_passport st a resp).2.1.base_url = st.base_url) ∧
    ((verify st a b c resp).2.1.base_url = st.base_url) ∧
    ((get_trust st a resp).2.1.base_url = st.base_url) ∧
    ((send_message st a b c d resp).2.1.base_url = st.base_url) ∧
    ((get_messages st a resp).2.1.base_url = st.base_url) ∧
    ((register st a b c resp).1.url = st.base_url ++ "/auth/register") ∧
    ((login st a b resp).1.url = st.base_url ++ "/auth/login") ∧
    ((create_passport st a b resp).1.url = st.base_url ++ "/passports") ∧
    ((get_passport st a resp).1.url = st.base_url ++ ("/passports/" ++ a)) ∧
    ((get_public_passport st a resp).1.url = st.base_url ++ ("/passports/" ++ a ++ "/public")) ∧
    ((verify st a b c resp).1.url = st.base_url ++ ("/passports/" ++ a ++ "/verify")) ∧
    ((get_trust st a resp).1.url = st.base_url ++ ("/passports/" ++ a ++ "/trust")) ∧
    ((send_message st a b c d resp).1.url = st.base_url ++ "/messages") ∧
    ((get_messages st a resp).1.url = st.base_url ++ ("/passports/" ++ a ++ "/messages")) := by
  refine ⟨rfl, endsInSlash_rstripSlashes s, rfl,
    (register_url_base st a b c resp).2, (login_url_base st a b resp).2,
    rfl, rfl, rfl, rfl, rfl, rfl, rfl,
    (register_url_base st a b c resp).1, (login_url_base st a b resp).1,
    rfl, rfl, rfl, rfl, rfl, rfl, rfl⟩

/-! ### Claim C9 -/

/-- Claim C9: when `register` or `login` raises an `AgentPassError` (the
server responded with a failure status), the stored token — indeed the
whole client state — is unchanged. -/
theorem C9_auth_error_atomicity (st : ClientState) (a b c : String) (resp : HttpResponse) :
    (∀ m code, (register st a b c resp).2.2 = Except.error (PyExn.agentPassError m code) →
        (register st a b c resp).2.1 = st) ∧
    (∀ m code, (login st a b resp).2.2 = Except.error (PyExn.agentPassError m code) →
        (login st a b resp).2.1 = st) := by
  constructor
  · intro m code h
    exact (auth_state_frame st a b c resp (PyExn.agentPassError m code)).1 h
  · intro m code h
    exact (auth_state_frame st a b c resp (PyExn.agentPassError m code)).2 h

/-- Witness for C9 at a concrete 401 rejection. -/
theorem C9_witness :
    (register { base_url := "https://api.agentpass.space", token := some (Json.str "old") }
        "e" "p" "n"
        { status := 401, text := "x",
          jsonBody := some (Json.obj [("error", Json.str "bad")]) }).2.2
      = Except.error (PyExn.agentPassError "bad" (some 401)) ∧
    (register { base_url := "https://api.agentpass.space", token := some (Json.str "old") }
        "e" "p" "n"
        { status := 401, text := "x",
          jsonBody := some (Json.obj [("error", Json.str "bad")]) }).2.1
      = { base_url := "https://api.agentpass.space", token := some (Json.str "old") } := by
  refine ⟨rfl, ?_⟩
  exact (C9_auth_error_atomicity
    { base_url := "https://api.agentpass.space", token := some (Json.str "old") } "e" "p" "n"
    { status := 401, text := "x",
      jsonBody := some (Json.obj [("error", Json.str "bad")]) }).1 "bad" (some 401) rfl

/-! ### Claim C10 -/

/-- Claim C10: when `register` or `login` receives a success response
whose JSON body is an object without a `token` field, the call fails with
`KeyError`, and on a 204 (no body) it fails with `TypeError`; neither is
an `AgentPassError`, and in both cases the stored token (the whole state)
is unchanged. -/
theorem C10_missing_token_fails (st : ClientState) (a b c : String) (resp : HttpResponse)
    (hok : respOk resp.status = true) :
    (resp.status = 204 →
        (register st a b c resp).2.2 = Except.error PyExn.typeError ∧
        (register st a b c resp).2.1 = st ∧
        (login st a b resp).2.2 = Except.error PyExn.typeError ∧
        (login st a b resp).2.1 = st) ∧
    (∀ fields, resp.status ≠ 204 → resp.jsonBody = some (Json.obj fields) →
        lookupField fields "token" = none →
        (register st a b c resp).2.2 = Except.error (PyExn.keyError "token") ∧
        (register st a b c resp).2.1 = st ∧
        (login st a b resp).2.2 = Except.error (PyExn.keyError "token") ∧
        (login st a b resp).2.1 = st) ∧
    (∀ m code, PyExn.typeError ≠ PyExn.agentPassError m code) ∧
    (∀ m code, PyExn.keyError "token" ≠ PyExn.agentPassError m code) := by
  refine ⟨?_, ?_, ?_, ?_⟩
  · intro h
    have hrr := requestRun_204 resp h
    have hreg : (register st a b c resp).2.2 = Except.error PyExn.typeError := by
      simp [register, request, hrr, subscript]
    have hlog : (login st a b resp).2.2 = Except.error PyExn.typeError := by
      simp [login, request, hrr, subscript]
    exact ⟨hreg, (auth_state_frame st a b c resp PyExn.typeError).1 hreg, hlog,
      (auth_state_frame st a b c resp PyExn.typeError).2 hlog⟩
  · intro fields h204 hbody htok
    have hrr := requestRun_success resp (Json.obj fields) hok h204 hbody
    have hsub : subscript (some (Json.obj fields)) "token"
        = Except.error (PyExn.keyError "token") := by
      simp [subscript, htok]
    have hreg : (register st a b c resp).2.2 = Except.error (PyExn.keyError "token") := by
      simp [register, request, hrr, hsub]
    have hlog : (login st a b resp).2.2 = Except.error (PyExn.keyError "token") := by
      simp [login, request, hrr, hsub]
    exact ⟨hreg, (auth_state_frame st a b c resp (PyExn.keyError "token")).1 hreg, hlog,
      (auth_state_frame st a b c resp (PyExn.keyError "token")).2 hlog⟩
  · intro m code h
    exact PyExn.noConfusion h
  · intro m code h
    exact PyExn.noConfusion h

/-- Witness for C10 at a concrete 200 response without a `token` field. -/
theorem C10_witness :
    respOk 200 = true ∧ (200 : Nat) ≠ 204 ∧
    (login { base_url := "https://api.agentpass.space", token := some (Json.str "old") }
        "e" "p"
        { status := 200, text := "",
          jsonBody := some (Json.obj [("ok", Json.bool true)]) }).2.2
      = Except.error (PyExn.keyError "token") ∧
    (login { base_url := "https://api.agentpass.space", token := some (Json.str "old") }
        "e" "p"
        { status := 200, text := "",
          jsonBody := some (Json.obj [("ok", Json.bool true)]) }).2.1
      = { base_url := "https://api.agentpass.space", token := some (Json.str "old") } := by
  have h := (C10_missing_token_fails
    { base_url := "https://api.agentpass.space", token := some (Json.str "old") } "e" "p" "n"
    { status := 200, text := "", jsonBody := some (Json.obj [("ok", Json.bool true)]) }
    (by decide)).2.1 [("ok", Json.bool true)] (by decide) rfl rfl
  exact ⟨by decide, by decide, h.2.2.1, h.2.2.2⟩
